import Mathlib

/-
Verification of the KLAP/AES transport core of the tplink-smarthome-api
library.  The definitions below are shallow embeddings of the TypeScript
source: pure helper functions are translated directly, stateful methods are
modelled by explicit state passing, thrown exceptions by Except/Option, and
the HTTP environment (statuses and device responses) by explicit inputs.
Library crypto primitives (AES-128 block maps, SHA-256) are parameters of the
definitions that call them, constrained only by the properties the library
guarantees.
-/

set_option maxRecDepth 2000

/-- Bytes models a Node `Buffer`: a list of byte values. -/
abbrev Bytes := List Nat

/-- UTF-8 bytes of a string, as `Buffer.from(s, 'utf8')`. -/
def utf8Bytes (s : String) : Bytes := s.toUTF8.toList.map (fun b => b.toNat)

/-- Model of `toSignedInt32` (klap-connection.ts lines 91-93):
reinterpret a value in `[0, 2^32)` as a signed 32-bit integer. -/
def toSignedInt32 (value : Int) : Int :=
  if value > 0x7fffffff then value - 0x100000000 else value

/-- Model of `incrementSignedInt32` (klap-connection.ts lines 95-97). -/
def incrementSignedInt32 (value : Int) : Int :=
  if value ≥ 0x7fffffff then -0x80000000 else value + 1

/-- Big-endian two's-complement 4-byte encoding of a signed 32-bit integer,
as `Buffer.writeInt32BE`. -/
def int32BE (value : Int) : Bytes :=
  let u := (value % 0x100000000).toNat
  [u / 0x1000000 % 256, u / 0x10000 % 256, u / 0x100 % 256, u % 256]

/-- Model of `signedInt32Buffer` (klap-connection.ts lines 99-103). -/
def signedInt32Buffer (value : Int) : Bytes :=
  int32BE (toSignedInt32 value)

/-- Constant `SESSION_EXPIRE_BUFFER_SECONDS = 60 * 20` shared by both
connection classes. -/
def SESSION_EXPIRE_BUFFER_SECONDS : Int := 60 * 20

/-- Model of the adjusted session lifetime computed in
`KlapConnection.ensureSession` (klap-connection.ts lines 426-430) and in
`AesConnection.performHandshake` (aes-connection.ts lines 440-444), for a
TIMEOUT cookie that parsed to the number `timeoutSeconds`
(the `Number.isNaN` branch does not apply to a numeric cookie). -/
def adjustedSessionSeconds (timeoutSeconds : Int) : Int :=
  max 1 (timeoutSeconds - SESSION_EXPIRE_BUFFER_SECONDS)

/-- Model of the stored session expiry instant, in milliseconds:
`this.sessionExpiresAt = Date.now() + adjustedSessionSeconds * 1000`
(klap-connection.ts line 438, aes-connection.ts line 445). -/
def sessionExpiresAt (nowMs timeoutSeconds : Int) : Int :=
  nowMs + adjustedSessionSeconds timeoutSeconds * 1000

/-- Constant `SIGNATURE_LENGTH = 32` (klap-connection.ts line 53). -/
def SIGNATURE_LENGTH : Nat := 32

/-- Model of the `KlapEncryptionSession` record (klap-connection.ts lines 41-46). -/
structure KlapEncryptionSession where
  key : Bytes
  ivPre : Bytes
  signaturePre : Bytes
  sequence : Int

/-- PKCS#7 padding to 16-byte blocks, as applied internally by the Node
`aes-128-cbc` cipher used in `encryptKlapPayload`. -/
def pkcs7pad (m : Bytes) : Bytes :=
  let n := 16 - m.length % 16
  m ++ List.replicate n n

/-- PKCS#7 unpadding with validation, as enforced by the Node `aes-128-cbc`
decipher in `decryptKlapPayload`; `none` models the padding error thrown by
`decipher.final()`. -/
def pkcs7unpad (m : Bytes) : Option Bytes :=
  m.getLast?.bind (fun k =>
    if 1 ≤ k ∧ k ≤ 16 ∧ k ≤ m.length ∧ (m.drop (m.length - k)).all (fun b => b = k) then
      some (m.take (m.length - k))
    else none)

/-- Byte-wise xor of two buffers. -/
def xorBytes (a b : Bytes) : Bytes := List.zipWith (fun x y => x ^^^ y) a b

/-- Split a buffer into successive 16-byte blocks. -/
def chunks16 (bs : Bytes) : List Bytes :=
  if h : bs = [] then [] else bs.take 16 :: chunks16 (bs.drop 16)
termination_by bs.length
decreasing_by
  simp only [List.length_drop]
  have : 0 < bs.length := List.length_pos.mpr h
  omega

/-- CBC-mode encryption of a block sequence over an abstract 16-byte block map. -/
def cbcEncrypt (encBlock : Bytes → Bytes) (iv : Bytes) : List Bytes → List Bytes
  | [] => []
  | b :: bs =>
    let c := encBlock (xorBytes iv b)
    c :: cbcEncrypt encBlock c bs

/-- CBC-mode decryption of a block sequence over the inverse block map. -/
def cbcDecrypt (decBlock : Bytes → Bytes) (iv : Bytes) : List Bytes → List Bytes
  | [] => []
  | c :: cs => xorBytes iv (decBlock c) :: cbcDecrypt decBlock c cs

/-- Model of the request IV construction shared by `encryptKlapPayload`
(klap-connection.ts line 155) and `decryptKlapPayload` (line 178):
the 12-byte session IV stem followed by the 4-byte big-endian sequence. -/
def klapRequestIv (session : KlapEncryptionSession) (seq : Int) : Bytes :=
  session.ivPre ++ signedInt32Buffer seq

/-- Result record of `encryptKlapPayload`. -/
structure KlapEncrypted where
  payload : Bytes
  seq : Int

/-- Model of `encryptKlapPayload` (klap-connection.ts lines 149-168).
`aesEncBlock key` stands for the AES-128 block map of
`createCipheriv('aes-128-cbc', session.key, iv)`, and `sha256` for the
library digest; the plaintext `message` is given as its UTF-8 bytes. -/
def encryptKlapPayload (aesEncBlock : Bytes → Bytes → Bytes) (sha256 : Bytes → Bytes)
    (session : KlapEncryptionSession) (message : Bytes) : KlapEncrypted :=
  let sequence := incrementSignedInt32 session.sequence
  let seqBuffer := signedInt32Buffer sequence
  let iv := klapRequestIv session sequence
  let ciphertext := (cbcEncrypt (aesEncBlock session.key) iv (chunks16 (pkcs7pad message))).flatten
  let signature := sha256 (session.signaturePre ++ seqBuffer ++ ciphertext)
  { payload := signature ++ ciphertext, seq := sequence }

/-- Model of `decryptKlapPayload` (klap-connection.ts lines 170-185):
`none` models the thrown "KLAP response payload is too short" error and any
padding failure inside `decipher.final()`; the returned bytes are the UTF-8
bytes of the string the source returns. -/
def decryptKlapPayload (aesDecBlock : Bytes → Bytes → Bytes)
    (session : KlapEncryptionSession) (message : Bytes) (seq : Int) : Option Bytes :=
  if message.length < SIGNATURE_LENGTH then none
  else
    let iv := klapRequestIv session seq
    pkcs7unpad ((cbcDecrypt (aesDecBlock session.key) iv
      (chunks16 (message.drop SIGNATURE_LENGTH))).flatten)

/-- Error classification of `KlapConnection.sendEncryptedRequest`:
a 403 carries the retryable marker (`statusCode = 403` on the thrown error),
any other non-200 status throws a plain error. -/
inductive KlapSendError where
  | status403
  | statusOther (statusCode : Nat)
deriving DecidableEq

/-- Model of the HTTP-status handling of `KlapConnection.sendEncryptedRequest`
(klap-connection.ts lines 441-482): 403 throws the retryable error, any other
non-200 throws a plain error, 200 decrypts and returns (the cryptographic
part is covered by the encryptKlapPayload/decryptKlapPayload development). -/
def sendEncryptedRequestStatus (status : Nat) : Except KlapSendError Unit :=
  if status = 403 then .error .status403
  else if status ≠ 200 then .error (.statusOther status)
  else .ok ()

/-- Trace of one `KlapConnection.send` call: its outcome, how many data-path
requests were posted, and how many full handshakes were performed. -/
structure KlapSendTrace where
  result : Except KlapSendError Unit
  requestAttempts : Nat
  handshakes : Nat

/-- Model of `KlapConnection.send` (klap-connection.ts lines 560-590) for a
fresh connection: `ensureSession` performs one full handshake (modelled as
succeeding; the claim conditions only on data-path statuses), and
`statuses i` is the HTTP status of the (i+1)-th data-path request.  A thrown
error whose statusCode is 403 resets the session, re-handshakes and resends
once; the retry's outcome, and any non-403 error of the first attempt, is
surfaced unchanged. -/
def klapSend (statuses : Nat → Nat) : KlapSendTrace :=
  match sendEncryptedRequestStatus (statuses 0) with
  | .ok r => { result := .ok r, requestAttempts := 1, handshakes := 1 }
  | .error .status403 =>
    { result := sendEncryptedRequestStatus (statuses 1)
      requestAttempts := 2
      handshakes := 2 }
  | .error e => { result := .error e, requestAttempts := 1, handshakes := 1 }

/-- Constant `AES_AUTH_ERROR_CODES` (aes-connection.ts lines 61-68). -/
def AES_AUTH_ERROR_CODES : List Int := [-1501, 1111, -1005, 1100, 1003, -40412]

/-- Inner result of one `login_device` call (`AesConnection.tryLogin`):
either the device answers `error_code 0` with a token, or a non-zero inner
`error_code` that `assertResponseSuccess` turns into a thrown error. -/
inductive AesLoginOutcome where
  | success (token : String)
  | failure (errorCode : Int)
deriving DecidableEq

/-- Errors observable from `AesConnection.performLogin`:
`noCandidatesAvailable` models "no login candidates available",
`noCandidatesSucceeded` models "no login candidates succeeded", and
`loginFailed code` models the `AesStatusError` carrying `errorCode = code`
thrown by `assertResponseSuccess`. -/
inductive AesLoginError where
  | noCandidatesAvailable
  | noCandidatesSucceeded
  | loginFailed (errorCode : Int)
deriving DecidableEq

/-- State after a login attempt: the outcome and the value of `this.token`. -/
structure AesLoginState where
  result : Except AesLoginError Unit
  token : Option String

/-- Model of `AesConnection.performLoginForCandidate` (aes-connection.ts
lines 484-515), phrased on the suffix of per-candidate inner outcomes from
the current index (`outcomes.drop index`); the source's guard
`index < candidates.length - 1` holds exactly when the suffix's tail is
nonempty.  `tryLogin` success stores the token; on a non-zero inner code,
`assertResponseSuccess` resets the session (clearing the token) when the
code is an auth code; the catch block then re-handshakes and recurses on the
next candidate when the code is an auth code and a next candidate exists —
and in every case executes `throw error`, so the original candidate's error
is re-thrown even after a successful recursive login. -/
def performLoginFrom : List AesLoginOutcome → Option String → AesLoginState
  | [], token => { result := .error .noCandidatesSucceeded, token := token }
  | .success tk :: _, _ => { result := .ok (), token := some tk }
  | .failure code :: rest, token =>
    let tokenAfterFailure := if code ∈ AES_AUTH_ERROR_CODES then none else token
    if code ∈ AES_AUTH_ERROR_CODES ∧ rest ≠ [] then
      let recursed := performLoginFrom rest none
      match recursed.result with
      | .ok _ => { result := .error (.loginFailed code), token := recursed.token }
      | .error e => { result := .error e, token := recursed.token }
    else { result := .error (.loginFailed code), token := tokenAfterFailure }

/-- Model of `AesConnection.performLogin` (aes-connection.ts lines 473-482):
`outcomes` lists the inner `login_device` result of each login candidate in
candidate order. -/
def performLogin (outcomes : List AesLoginOutcome) : AesLoginState :=
  if outcomes.length = 0 then
    { result := .error .noCandidatesAvailable, token := none }
  else performLoginFrom outcomes none

/-- Credentials record (credentials.ts): a username/password pair. -/
structure Credentials where
  username : String
  password : String

/-- KLAP auth-hash version tag (klap-connection.ts line 20). -/
inductive KlapHashVersion where
  | v1
  | v2
deriving DecidableEq

/-- KLAP auth candidate (klap-connection.ts lines 22-26). -/
structure KlapAuthCandidate where
  label : String
  version : KlapHashVersion
  authHash : Bytes
deriving DecidableEq

/-- Model of `KlapConnection.authHashV1` (klap-connection.ts lines 232-239):
md5(md5(username) ++ md5(password)); md5 is a library primitive parameter. -/
def authHashV1 (md5 : Bytes → Bytes) (credentials : Credentials) : Bytes :=
  md5 (md5 (utf8Bytes credentials.username) ++ md5 (utf8Bytes credentials.password))

/-- Model of `KlapConnection.authHashV2` (klap-connection.ts lines 241-248):
sha256(sha1(username) ++ sha1(password)). -/
def authHashV2 (sha1 sha256 : Bytes → Bytes) (credentials : Credentials) : Bytes :=
  sha256 (sha1 (utf8Bytes credentials.username) ++ sha1 (utf8Bytes credentials.password))

/-- Decoded `DEFAULT_CREDENTIALS_BASE64[0]` (klap-connection.ts lines 56-60):
base64 of "kasa@tp-link.net" and "kasaSetup". -/
def defaultKasaCredentials : Credentials :=
  { username := "kasa@tp-link.net", password := "kasaSetup" }

/-- Decoded `DEFAULT_CREDENTIALS_BASE64[1]` (klap-connection.ts lines 61-65):
base64 of "test@tp-link.net" and "test". -/
def defaultTapoCredentials : Credentials :=
  { username := "test@tp-link.net", password := "test" }

/-- The two candidates contributed for one credential pair by
`addCredentialPair` (klap-connection.ts lines 283-286): v2 first, then v1. -/
def credentialPairCandidates (md5 sha1 sha256 : Bytes → Bytes) (label : String)
    (credentials : Credentials) : List KlapAuthCandidate :=
  [ { label := label, version := .v2, authHash := authHashV2 sha1 sha256 credentials },
    { label := label, version := .v1, authHash := authHashV1 md5 credentials } ]

/-- The sequence of `addCandidate` calls made by
`KlapConnection.buildAuthCandidates` (klap-connection.ts lines 250-302)
before the seen-set filtering: decoded credentialsHash (v2, v1), user
credentials (v2, v1), KASA defaults (v2, v1), TAPO defaults (v2, v1), blank
credentials (v2, v1). -/
def rawAuthCandidates (md5 sha1 sha256 : Bytes → Bytes)
    (credentialsHash : Option Bytes) (credentials : Option Credentials) :
    List KlapAuthCandidate :=
  (match credentialsHash with
   | some decodedHash =>
     [ { label := "credentialsHash", version := .v2, authHash := decodedHash },
       { label := "credentialsHash", version := .v1, authHash := decodedHash } ]
   | none => [])
  ++ (match credentials with
      | some c => credentialPairCandidates md5 sha1 sha256 "credentials" c
      | none => [])
  ++ credentialPairCandidates md5 sha1 sha256 "KASA" defaultKasaCredentials
  ++ credentialPairCandidates md5 sha1 sha256 "TAPO" defaultTapoCredentials
  ++ credentialPairCandidates md5 sha1 sha256 "blank" { username := "", password := "" }

/-- The deduplication key of `addCandidate` (klap-connection.ts line 258):
the source key is the string `version + ":" + authHash hex`; the pair is
equivalent because hex encoding is injective on byte buffers. -/
def candidateKey (candidate : KlapAuthCandidate) : KlapHashVersion × Bytes :=
  (candidate.version, candidate.authHash)

/-- Model of the seen-set filtering performed by `addCandidate`
(klap-connection.ts lines 252-263): a left fold over the add calls that
keeps the first candidate of each key. -/
def addCandidatesFold (raw : List KlapAuthCandidate) : List KlapAuthCandidate :=
  (raw.foldl
    (fun (st : List (KlapHashVersion × Bytes) × List KlapAuthCandidate) candidate =>
      if candidateKey candidate ∈ st.1 then st
      else (candidateKey candidate :: st.1, st.2 ++ [candidate]))
    ([], [])).2

/-- Model of `KlapConnection.buildAuthCandidates` (klap-connection.ts
lines 250-302). -/
def buildAuthCandidates (md5 sha1 sha256 : Bytes → Bytes)
    (credentialsHash : Option Bytes) (credentials : Option Credentials) :
    List KlapAuthCandidate :=
  addCandidatesFold (rawAuthCandidates md5 sha1 sha256 credentialsHash credentials)

/-- Specification-level deduplication with an explicit seen list:
keep the first element of each key, in order. -/
def dedupByKeyAux {α κ : Type} [DecidableEq κ] (key : α → κ) (seen : List κ) :
    List α → List α
  | [] => []
  | x :: xs =>
    if key x ∈ seen then dedupByKeyAux key seen xs
    else x :: dedupByKeyAux key (key x :: seen) xs

/-- Specification-level deduplication by key, first occurrence wins (used to
state the C6 claim against `buildAuthCandidates`). -/
def dedupByKey {α κ : Type} [DecidableEq κ] (key : α → κ) (xs : List α) : List α :=
  dedupByKeyAux key [] xs

/-- Model of `KlapConnection.handshake1SeedAuthHash` (klap-connection.ts
lines 304-314). -/
def handshake1SeedAuthHash (sha256 : Bytes → Bytes)
    (localSeed remoteSeed authHash : Bytes) : KlapHashVersion → Bytes
  | .v1 => sha256 (localSeed ++ authHash)
  | .v2 => sha256 (localSeed ++ remoteSeed ++ authHash)

/-- Model of the candidate loop of `KlapConnection.selectAuthCandidate`
(klap-connection.ts lines 328-354); `.error` models the thrown
"authentication failed (challenge mismatch)" error. -/
def selectAuthCandidateLoop (sha256 : Bytes → Bytes)
    (localSeed remoteSeed serverHash : Bytes) :
    List KlapAuthCandidate → Except String KlapAuthCandidate
  | [] => .error "authentication failed (challenge mismatch)"
  | candidate :: rest =>
    if handshake1SeedAuthHash sha256 localSeed remoteSeed candidate.authHash
        candidate.version = serverHash then
      .ok candidate
    else selectAuthCandidateLoop sha256 localSeed remoteSeed serverHash rest

/-- Model of `KlapConnection.selectAuthCandidate` (klap-connection.ts
lines 328-354). -/
def selectAuthCandidate (md5 sha1 sha256 : Bytes → Bytes)
    (credentialsHash : Option Bytes) (credentials : Option Credentials)
    (localSeed remoteSeed serverHash : Bytes) : Except String KlapAuthCandidate :=
  selectAuthCandidateLoop sha256 localSeed remoteSeed serverHash
    (buildAuthCandidates md5 sha1 sha256 credentialsHash credentials)

/-- The zero-byte scan of `decryptPkcs1v15` (aes-connection.ts lines
154-160) on the block tail starting at index 2: the offset of the first
zero byte in the given tail. -/
def firstZeroOffset : Bytes → Option Nat
  | [] => none
  | b :: rest =>
    if b = 0 then some 0 else (firstZeroOffset rest).map (fun j => j + 1)

/-- Model of the `separatorIndex` computed by `decryptPkcs1v15`
(aes-connection.ts lines 154-160): the index of the first zero byte at
position ≥ 2, or -1 when there is none. -/
def findSeparatorIndex (block : Bytes) : Int :=
  match firstZeroOffset (block.drop 2) with
  | some j => (j : Int) + 2
  | none => -1

/-- Model of the manual PKCS#1 v1.5 unpadding of `decryptPkcs1v15`
(aes-connection.ts lines 136-166), applied to the block produced by the
library's raw (`RSA_NO_PADDING`) decryption; `.error` carries the thrown
message.  After the length check the source reads `block[0]` and
`block[1]`, which equals comparing the 2-byte prefix. -/
def pkcs1v15Unpad (block : Bytes) : Except String Bytes :=
  if block.length < 11 then .error "PKCS#1 block too short"
  else if block.take 2 ≠ [0, 2] then .error "Invalid PKCS#1 block prefix"
  else
    let separatorIndex := findSeparatorIndex block
    if separatorIndex < 10 then .error "Invalid PKCS#1 padding length"
    else .ok (block.drop (separatorIndex.toNat + 1))

/-- Model of the key split in `AesConnection.performHandshake`
(aes-connection.ts lines 411-424): unpadded key material shorter than
32 bytes is rejected; otherwise bytes 0..15 become the AES key and bytes
16..31 the IV. -/
def splitAesKeyMaterial (material : Bytes) : Except String (Bytes × Bytes) :=
  if material.length < 32 then .error "handshake key material is invalid"
  else .ok (material.take 16, (material.drop 16).take 16)

/-- Parsed JSON values as handled by the SMART layer (device.ts).  `undef`
models the JavaScript `undefined` that `'result' in entry ? entry.result :
undefined` can store. -/
inductive JVal where
  | undef
  | null
  | bool (b : Bool)
  | num (n : Int)
  | str (s : String)
  | arr (elems : List JVal)
  | obj (fields : List (String × JVal))

/-- Property lookup `value.key` on a parsed JSON value: defined for objects
(first matching key); on arrays the SMART layer only reads non-index keys,
which are absent, and on primitives property access yields undefined,
modelled as `none`. -/
def JVal.get? : JVal → String → Option JVal
  | .obj fields, key => (fields.find? (fun f => f.1 = key)).map (fun f => f.2)
  | _, _ => none

/-- The JavaScript `key in value` check: the property exists (possibly with
an undefined value). -/
def JVal.hasKey (v : JVal) (key : String) : Bool := (v.get? key).isSome

/-- Model of `isObjectLike` (utils / device.ts): true for objects and
arrays (`typeof x === 'object' && x !== null`). -/
def isObjectLike : JVal → Bool
  | .obj _ => true
  | .arr _ => true
  | _ => false

/-- Numeric `error_code` member of a response, when present: some n exactly
when `isObjectLike(v) && typeof v.error_code === 'number'`
(`isSmartResponse`, device.ts lines 139-141). -/
def JVal.errorCode? (v : JVal) : Option Int :=
  match v.get? "error_code" with
  | some (.num n) => some n
  | _ => none

/-- String `method` member of a batch response entry, when present. -/
def entryMethod? (entry : JVal) : Option String :=
  match entry.get? "method" with
  | some (.str m) => some m
  | _ => none

/-- Errors thrown by the SMART response processing (device.ts):
`protocolError` models the plain `Error` throws, `smartError code method`
models `SmartError` with that `errorCode` and `method` (its response/request
JSON strings are not modelled). -/
inductive SmartFailure where
  | protocolError (message : String)
  | smartError (errorCode : Int) (method : String)
deriving DecidableEq

/-- Model of `Device.assertSmartSuccess` (device.ts lines 659-677):
a response without an object shape or numeric error_code is a protocol
error (`isSmartResponse` fails exactly when `errorCode?` is none); a
non-zero error_code raises SmartError; otherwise the response is returned. -/
def assertSmartSuccess (response : JVal) (method : String) :
    Except SmartFailure JVal :=
  match response.errorCode? with
  | none => .error (.protocolError "Unexpected SMART response")
  | some code =>
    if code = 0 then .ok response
    else .error (.smartError code method)

/-- JavaScript object property assignment `target[key] = v`: overwrite in
place when the key exists, append otherwise. -/
def objInsert : List (String × JVal) → String → JVal → List (String × JVal)
  | [], key, v => [(key, v)]
  | (k, w) :: rest, key, v =>
    if k = key then (k, v) :: rest else (k, w) :: objInsert rest key v

/-- Model of the `forEach` loop of `Device.processSmartResponse`
(device.ts lines 702-725) over the entries of `result.responses`, threading
the `multiResults` accumulator: an entry without object shape, string
method or numeric error_code throws the protocol error; a non-zero
error_code throws SmartError with that entry's code and method; otherwise
the entry's result (undefined when absent) is stored under its method. -/
def processSmartEntries : List JVal → List (String × JVal) →
    Except SmartFailure (List (String × JVal))
  | [], acc => .ok acc
  | entry :: rest, acc =>
    match entryMethod? entry, entry.errorCode? with
    | some m, some code =>
      if code = 0 then
        processSmartEntries rest (objInsert acc m ((entry.get? "result").getD .undef))
      else .error (.smartError code m)
    | _, _ => .error (.protocolError "Unexpected SMART response entry")

/-- Model of `Device.processSmartResponse` (device.ts lines 679-727).
For a non-batch method the top-level `result` is returned; for
`multipleRequest`, `result.responses` must be an array (reaching it through
a non-object or keyless `result` fails the source's `isObjectLike` /
`'responses' in` / `Array.isArray` checks, which is when the nested lookup
here yields no array), and the entries are folded into a method-keyed map. -/
def processSmartResponse (response : JVal) (method : String) :
    Except SmartFailure JVal :=
  match assertSmartSuccess response method with
  | .error e => .error e
  | .ok smartResponse =>
    if method ≠ "multipleRequest" then
      .ok ((smartResponse.get? "result").getD .undef)
    else
      match ((smartResponse.get? "result").getD .undef).get? "responses" with
      | some (.arr entries) =>
        match processSmartEntries entries [] with
        | .ok multiResults => .ok (.obj multiResults)
        | .error e => .error e
      | _ => .error (.protocolError "Unexpected SMART multipleRequest response")

/-- Specification-level method-to-result map of a batch response: the same
left fold as the source's forEach, stated independently for the C4 claim. -/
def smartResponseMap (entries : List JVal) : List (String × JVal) :=
  entries.foldl
    (fun acc entry =>
      objInsert acc ((entryMethod? entry).getD "") ((entry.get? "result").getD .undef))
    []

/-- The device fields used by the SMART request layer. -/
structure DeviceModel where
  deviceId : String
  terminalUuid : String

/-- Model of `Device.normalizeChildId` (device.ts lines 729-738). -/
def normalizeChildId (deviceId childId : String) : String :=
  if childId.length = 1 then deviceId ++ "0" ++ childId
  else if childId.length = 2 then deviceId ++ childId
  else childId

/-- Model of `Device.getSingleSmartChildId` (device.ts lines 644-657):
`none` input models `childIds === undefined`, a singleton list models a
plain string (`castArray`); more than one normalized id throws; an empty
array yields `childIdArray[0] === undefined`, that is, no child. -/
def getSingleSmartChildId (deviceId : String) (childIds : Option (List String)) :
    Except SmartFailure (Option String) :=
  match childIds with
  | none => .ok none
  | some ids =>
    let childIdArray := ids.map (normalizeChildId deviceId)
    if childIdArray.length > 1 then
      .error (.protocolError "SMART control_child supports a single child id")
    else .ok childIdArray.head?

/-- Model of `Device.createSmartRequestPayload` (device.ts lines 633-642):
`nowMs` stands for `Date.now()` and the terminal uuid is the device's
process-stable random identifier. -/
def createSmartRequestPayload (nowMs : Int) (terminalUuid : String)
    (method : String) (params : Option JVal) : JVal :=
  .obj ([("method", .str method)]
    ++ (match params with
        | some p => [("params", p)]
        | none => [])
    ++ [("request_time_milis", .num nowMs), ("terminal_uuid", .str terminalUuid)])

/-- Result of one modelled `Device.sendSmartCommand` call: the payload that
was transmitted (`none` when the call failed before sending) and the
processed outcome. -/
structure SmartSendResult where
  sent : Option JVal
  result : Except SmartFailure JVal

/-- Model of `Device.sendSmartCommand` (device.ts lines 536-597).  The
device's (already JSON-parsed) reply is the `response` input; transport
selection and the send itself are environment actions.  With a child id the
request is wrapped in `control_child` carrying the normalized id and the
inner method/params, and the reply is unwrapped through
`result.responseData` after verifying the outer envelope. -/
def sendSmartCommand (dev : DeviceModel) (nowMs : Int) (method : String)
    (params : Option JVal) (childIds : Option (List String)) (response : JVal) :
    SmartSendResult :=
  match getSingleSmartChildId dev.deviceId childIds with
  | .error e => { sent := none, result := .error e }
  | .ok childId =>
    let requestToSend :=
      match childId with
      | some c =>
        createSmartRequestPayload nowMs dev.terminalUuid "control_child"
          (some (.obj [("device_id", .str c),
            ("requestData", .obj ([("method", .str method)]
              ++ (match params with
                  | some p => [("params", p)]
                  | none => [])))]))
      | none => createSmartRequestPayload nowMs dev.terminalUuid method params
    let processed :=
      match childId with
      | some _ =>
        match assertSmartSuccess response "control_child" with
        | .error e => .error e
        | .ok outer =>
          match ((outer.get? "result").getD .undef).get? "responseData" with
          | some responseData => processSmartResponse responseData method
          | none => .error (.protocolError "Unexpected SMART control_child response")
      | none => processSmartResponse response method
    { sent := some requestToSend, result := processed }

/-- A SMART method request (client.ts `SmartMethodRequest`). -/
structure SmartMethodRequest where
  method : String
  params : Option JVal

/-- Model of `Device.sendSmartRequests` (device.ts lines 602-631): an empty
request list resolves to the empty map immediately, before any send; a
nonempty list is batched into one `multipleRequest` via sendSmartCommand
and the resulting map is required to be object-like. -/
def sendSmartRequests (dev : DeviceModel) (nowMs : Int)
    (requests : List SmartMethodRequest) (childIds : Option (List String))
    (response : JVal) : SmartSendResult :=
  if requests.length = 0 then { sent := none, result := .ok (.obj []) }
  else
    let r := sendSmartCommand dev nowMs "multipleRequest"
      (some (.obj [("requests", .arr (requests.map (fun request =>
        .obj ([("method", .str request.method)]
          ++ (match request.params with
              | some p => [("params", p)]
              | none => [])))))]))
      childIds response
    match r.result with
    | .ok v =>
      if isObjectLike v then { sent := r.sent, result := .ok v }
      else
        { sent := r.sent
          result := .error (.protocolError "Unexpected SMART multipleRequest response") }
    | .error _ => r

/-! ### Theorems -/

/-- C2 counterexample: with a server-reported TIMEOUT of 100 seconds the
stored expiry is now + 1000 ms, which is not at most
now + (100 - 1200) seconds; the claimed bound fails for small timeouts. -/
theorem session_expiry_guard_counterexample :
    sessionExpiresAt 0 100 = 1000 ∧ ¬ (sessionExpiresAt 0 100 ≤ 0 + (100 - 1200) * 1000) := by
  constructor
  · rfl
  · decide

/-- C2 (amended): after a successful handshake that reported a numeric
TIMEOUT cookie of t seconds, the stored expiry equals
now + max(1, t - 1200) seconds; hence whenever t ≥ 1201 the session is
considered expired at least 1200 seconds before the server timeout. -/
theorem session_expiry_guard_amended (nowMs t : Int) (h : 1201 ≤ t) :
    sessionExpiresAt nowMs t = nowMs + (t - 1200) * 1000 ∧
      sessionExpiresAt nowMs t ≤ nowMs + (t - 1200) * 1000 := by
  have hadj : adjustedSessionSeconds t = t - 1200 := by
    simp only [adjustedSessionSeconds, SESSION_EXPIRE_BUFFER_SECONDS]
    rw [max_eq_right (by omega)]
    norm_num
  constructor
  · simp only [sessionExpiresAt, hadj]
  · simp only [sessionExpiresAt, hadj]
    omega

/-- C2 witness: the amended bound evaluated at now = 0, t = 2000. -/
theorem session_expiry_guard_amended_witness :
    sessionExpiresAt 0 2000 = 0 + (2000 - 1200) * 1000 ∧
      sessionExpiresAt 0 2000 ≤ 0 + (2000 - 1200) * 1000 :=
  session_expiry_guard_amended 0 2000 (by norm_num)

/-- C7: for a KLAP session whose sequence is a signed 32-bit value, the next
encrypted request uses sequence seq + 1 when seq < 0x7FFFFFFF and wraps to
-0x80000000 at 0x7FFFFFFF, and the request IV is 16 bytes whose last 4 bytes
are the big-endian two's-complement 32-bit encoding of the new sequence. -/
theorem klap_sequence_increment_and_iv (aesEncBlock : Bytes → Bytes → Bytes)
    (sha256 : Bytes → Bytes) (session : KlapEncryptionSession) (message : Bytes)
    (hlo : -0x80000000 ≤ session.sequence) (hhi : session.sequence ≤ 0x7fffffff)
    (hivp : session.ivPre.length = 12) :
    (encryptKlapPayload aesEncBlock sha256 session message).seq
        = (if session.sequence = 0x7fffffff then -0x80000000 else session.sequence + 1)
    ∧ (klapRequestIv session (encryptKlapPayload aesEncBlock sha256 session message).seq).length = 16
    ∧ (klapRequestIv session (encryptKlapPayload aesEncBlock sha256 session message).seq).drop 12
        = int32BE (encryptKlapPayload aesEncBlock sha256 session message).seq := by
  have hseq : (encryptKlapPayload aesEncBlock sha256 session message).seq
      = incrementSignedInt32 session.sequence := rfl
  have hrange : incrementSignedInt32 session.sequence ≤ 0x7fffffff := by
    simp only [incrementSignedInt32]
    split <;> omega
  have hsigned : signedInt32Buffer (incrementSignedInt32 session.sequence)
      = int32BE (incrementSignedInt32 session.sequence) := by
    simp only [signedInt32Buffer, toSignedInt32]
    rw [if_neg (by omega)]
  refine ⟨?_, ?_, ?_⟩
  · rw [hseq]
    simp only [incrementSignedInt32]
    split_ifs with h1 h2 <;> omega
  · rw [hseq]
    simp only [klapRequestIv, hsigned, List.length_append, hivp, int32BE, List.length_cons]
    rfl
  · rw [hseq]
    simp only [klapRequestIv, hsigned]
    have h12 : (12 : Nat) = session.ivPre.length := hivp.symm
    rw [h12, List.drop_left]

/-- C7 witness: increment and IV encoding at the wrap boundary
seq = 0x7FFFFFFF, with a 12-byte zero IV stem. -/
theorem klap_sequence_increment_and_iv_witness :
    (encryptKlapPayload (fun _ b => b) (fun _ => [])
        ⟨[], List.replicate 12 0, [], 0x7fffffff⟩ []).seq
        = (if (0x7fffffff : Int) = 0x7fffffff then -0x80000000 else 0x7fffffff + 1)
    ∧ (klapRequestIv ⟨[], List.replicate 12 0, [], 0x7fffffff⟩
        (encryptKlapPayload (fun _ b => b) (fun _ => [])
          ⟨[], List.replicate 12 0, [], 0x7fffffff⟩ []).seq).length = 16
    ∧ (klapRequestIv ⟨[], List.replicate 12 0, [], 0x7fffffff⟩
        (encryptKlapPayload (fun _ b => b) (fun _ => [])
          ⟨[], List.replicate 12 0, [], 0x7fffffff⟩ []).seq).drop 12
        = int32BE (encryptKlapPayload (fun _ b => b) (fun _ => [])
          ⟨[], List.replicate 12 0, [], 0x7fffffff⟩ []).seq :=
  klap_sequence_increment_and_iv (fun _ b => b) (fun _ => [])
    ⟨[], List.replicate 12 0, [], 0x7fffffff⟩ [] (by norm_num) (by norm_num) (by simp)


/-- Xor of equal-length byte lists cancels on the left. -/
theorem xorBytes_cancel (a : Bytes) : ∀ b : Bytes, a.length = b.length →
    xorBytes a (xorBytes a b) = b := by
  induction a with
  | nil =>
    intro b hb
    cases b with
    | nil => rfl
    | cons y ys => simp at hb
  | cons x xs ih =>
    intro b hb
    cases b with
    | nil => simp at hb
    | cons y ys =>
      have hlen : xs.length = ys.length := by
        simp only [List.length_cons] at hb
        omega
      have htail := ih ys hlen
      simp only [xorBytes, List.zipWith_cons_cons] at htail ⊢
      rw [← Nat.xor_assoc, Nat.xor_self, Nat.zero_xor, htail]

/-- Length of a byte-wise xor. -/
theorem xorBytes_length (a b : Bytes) : (xorBytes a b).length = min a.length b.length :=
  List.length_zipWith _ a b

/-- CBC decryption inverts CBC encryption on 16-byte blocks, for any block
cipher pair that is inverse and length-preserving on 16-byte blocks. -/
theorem cbcDecrypt_cbcEncrypt (encBlock decBlock : Bytes → Bytes)
    (hinv : ∀ b : Bytes, b.length = 16 → decBlock (encBlock b) = b)
    (hlen : ∀ b : Bytes, b.length = 16 → (encBlock b).length = 16) :
    ∀ (bs : List Bytes) (iv : Bytes), iv.length = 16 → (∀ b ∈ bs, b.length = 16) →
      cbcDecrypt decBlock iv (cbcEncrypt encBlock iv bs) = bs := by
  intro bs
  induction bs with
  | nil => intro iv _ _; rfl
  | cons b rest ih =>
    intro iv hiv hall
    have hb : b.length = 16 := hall b (List.mem_cons_self b rest)
    have hxlen : (xorBytes iv b).length = 16 := by
      rw [xorBytes_length, hiv, hb]
      norm_num
    simp only [cbcEncrypt, cbcDecrypt]
    rw [hinv _ hxlen, xorBytes_cancel iv b (by omega),
      ih (encBlock (xorBytes iv b)) (hlen _ hxlen)
        (fun x hx => hall x (List.mem_cons_of_mem b hx))]

/-- Flattening the 16-byte chunks of a buffer restores the buffer
(fuel-based induction on the buffer length). -/
theorem flatten_chunks16_aux : ∀ (n : Nat) (bs : Bytes), bs.length ≤ n →
    (chunks16 bs).flatten = bs := by
  intro n
  induction n with
  | zero =>
    intro bs hbs
    have hnil : bs = [] := List.eq_nil_of_length_eq_zero (by omega)
    rw [hnil, chunks16]
    simp
  | succ n ih =>
    intro bs hbs
    by_cases hnil : bs = []
    · rw [hnil, chunks16]
      simp
    · rw [chunks16, dif_neg hnil]
      simp only [List.flatten_cons]
      rw [ih (bs.drop 16) (by simp only [List.length_drop]; omega)]
      exact List.take_append_drop 16 bs

/-- Flattening the 16-byte chunks of a buffer restores the buffer. -/
theorem flatten_chunks16 (bs : Bytes) : (chunks16 bs).flatten = bs :=
  flatten_chunks16_aux bs.length bs (Nat.le_refl _)

/-- Chunking a concatenation of 16-byte blocks restores the block list. -/
theorem chunks16_flatten (blocks : List Bytes) :
    (∀ b ∈ blocks, b.length = 16) → chunks16 blocks.flatten = blocks := by
  induction blocks with
  | nil =>
    intro _
    rw [List.flatten_nil, chunks16]
    simp
  | cons b rest ih =>
    intro hall
    have hb : b.length = 16 := hall b (List.mem_cons_self b rest)
    have hbne : b ≠ [] := by
      intro hb0
      rw [hb0] at hb
      simp at hb
    simp only [List.flatten_cons]
    rw [chunks16, dif_neg (List.append_ne_nil_of_left_ne_nil hbne _)]
    have htake : (b ++ rest.flatten).take 16 = b := by
      rw [← hb]
      exact List.take_left b rest.flatten
    have hdrop : (b ++ rest.flatten).drop 16 = rest.flatten := by
      rw [← hb]
      exact List.drop_left b rest.flatten
    rw [htake, hdrop, ih (fun x hx => hall x (List.mem_cons_of_mem b hx))]

/-- Every chunk of a buffer whose length is a positive multiple of 16 has
length 16 (fuel-based induction on the buffer length). -/
theorem chunks16_all_length_aux : ∀ (n : Nat) (bs : Bytes), bs.length ≤ n →
    bs.length % 16 = 0 → ∀ b ∈ chunks16 bs, b.length = 16 := by
  intro n
  induction n with
  | zero =>
    intro bs hbs _ b hb
    have hnil : bs = [] := List.eq_nil_of_length_eq_zero (by omega)
    rw [hnil, chunks16] at hb
    simp at hb
  | succ n ih =>
    intro bs hbs hmod b hb
    by_cases hnil : bs = []
    · rw [hnil, chunks16] at hb
      simp at hb
    · have hpos : 0 < bs.length := List.length_pos.mpr hnil
      have h16 : 16 ≤ bs.length := by omega
      rw [chunks16, dif_neg hnil] at hb
      rcases List.mem_cons.mp hb with h | h
      · rw [h, List.length_take]
        omega
      · exact ih (bs.drop 16) (by simp only [List.length_drop]; omega)
          (by simp only [List.length_drop]; omega) b h

/-- Every chunk of a buffer whose length is a multiple of 16 has length 16. -/
theorem chunks16_all_length (bs : Bytes) (hmod : bs.length % 16 = 0) :
    ∀ b ∈ chunks16 bs, b.length = 16 :=
  chunks16_all_length_aux bs.length bs (Nat.le_refl _) hmod

/-- Every CBC ciphertext block has length 16 when the cipher preserves
16-byte blocks and all plaintext blocks and the IV have length 16. -/
theorem cbcEncrypt_all_length (encBlock : Bytes → Bytes)
    (hlen : ∀ b : Bytes, b.length = 16 → (encBlock b).length = 16) :
    ∀ (bs : List Bytes) (iv : Bytes), iv.length = 16 → (∀ b ∈ bs, b.length = 16) →
      ∀ c ∈ cbcEncrypt encBlock iv bs, c.length = 16 := by
  intro bs
  induction bs with
  | nil => intro iv _ _ c hc; simp [cbcEncrypt] at hc
  | cons b rest ih =>
    intro iv hiv hall c hc
    have hb : b.length = 16 := hall b (List.mem_cons_self b rest)
    have hxlen : (xorBytes iv b).length = 16 := by
      rw [xorBytes_length, hiv, hb]
      norm_num
    simp only [cbcEncrypt] at hc
    rcases List.mem_cons.mp hc with h | h
    · rw [h]
      exact hlen _ hxlen
    · exact ih (encBlock (xorBytes iv b)) (hlen _ hxlen)
        (fun x hx => hall x (List.mem_cons_of_mem b hx)) c h

/-- PKCS#7 padding always produces a multiple of 16 bytes. -/
theorem pkcs7pad_length (m : Bytes) : (pkcs7pad m).length % 16 = 0 := by
  simp only [pkcs7pad, List.length_append, List.length_replicate]
  omega

/-- PKCS#7 unpadding inverts PKCS#7 padding. -/
theorem pkcs7unpad_pkcs7pad (m : Bytes) : pkcs7unpad (pkcs7pad m) = some m := by
  have h15 : m.length % 16 ≤ 15 := by omega
  set n := 16 - m.length % 16 with hn
  have hn1 : 1 ≤ n := by omega
  have hn16 : n ≤ 16 := by omega
  have hlast : (pkcs7pad m).getLast? = some n := by
    rw [pkcs7pad, ← hn, List.getLast?_append_of_ne_nil m (by simp; omega)]
    cases hcase : n with
    | zero => omega
    | succ k => rw [List.replicate_succ' k _, List.getLast?_concat]
  have hlen : (pkcs7pad m).length = m.length + n := by
    simp [pkcs7pad, ← hn]
  have hdrop : (pkcs7pad m).drop ((pkcs7pad m).length - n) = List.replicate n n := by
    rw [hlen, pkcs7pad, ← hn]
    have hsub : m.length + n - n = m.length := by omega
    rw [hsub]
    exact List.drop_left m _
  have htake : (pkcs7pad m).take ((pkcs7pad m).length - n) = m := by
    rw [hlen, pkcs7pad, ← hn]
    have hsub : m.length + n - n = m.length := by omega
    rw [hsub]
    exact List.take_left m _
  rw [pkcs7unpad, hlast, Option.some_bind, if_pos]
  · rw [htake]
  · refine ⟨hn1, hn16, by omega, ?_⟩
    rw [hdrop]
    simp [List.all_eq_true, List.mem_replicate]

/-- Decrypting a payload that is a 32-byte signature followed by a
ciphertext drops the signature and decrypts the remainder. -/
theorem decryptKlapPayload_append (aesDecBlock : Bytes → Bytes → Bytes)
    (session : KlapEncryptionSession) (sig ct : Bytes) (seq : Int)
    (hsiglen : sig.length = 32) :
    decryptKlapPayload aesDecBlock session (sig ++ ct) seq
      = pkcs7unpad ((cbcDecrypt (aesDecBlock session.key)
          (klapRequestIv session seq) (chunks16 ct)).flatten) := by
  have hnot : ¬ ((sig ++ ct).length < SIGNATURE_LENGTH) := by
    rw [SIGNATURE_LENGTH, List.length_append, hsiglen]
    omega
  rw [decryptKlapPayload, if_neg hnot]
  have hdrop : (sig ++ ct).drop SIGNATURE_LENGTH = ct := by
    rw [SIGNATURE_LENGTH, ← hsiglen, List.drop_left]
  rw [hdrop]

/-- C8: decrypting with decryptKlapPayload the payload produced by
encryptKlapPayload (a 32-byte signature followed by the AES-128-CBC
ciphertext), with the same session and the sequence number encryption used,
returns the original plaintext; and payloads shorter than 32 bytes are
rejected.  The AES-128 block maps are abstract parameters that are mutually
inverse and length-preserving on 16-byte blocks, and sha256 always produces
32 bytes, as the Node crypto library guarantees. -/
theorem klap_framing_roundtrip (aesEncBlock aesDecBlock : Bytes → Bytes → Bytes)
    (sha256 : Bytes → Bytes) (session : KlapEncryptionSession) (message : Bytes)
    (hinv : ∀ b : Bytes, b.length = 16 → aesDecBlock session.key (aesEncBlock session.key b) = b)
    (hlen : ∀ b : Bytes, b.length = 16 → (aesEncBlock session.key b).length = 16)
    (hsig : ∀ x : Bytes, (sha256 x).length = 32)
    (hivp : session.ivPre.length = 12) :
    decryptKlapPayload aesDecBlock session
        (encryptKlapPayload aesEncBlock sha256 session message).payload
        (encryptKlapPayload aesEncBlock sha256 session message).seq = some message
    ∧ ∀ (m : Bytes) (seq : Int), m.length < 32 →
        decryptKlapPayload aesDecBlock session m seq = none := by
  have hiv16 : ∀ s : Int, (klapRequestIv session s).length = 16 := by
    intro s
    simp [klapRequestIv, signedInt32Buffer, int32BE, hivp]
  have hblocks : ∀ b ∈ chunks16 (pkcs7pad message), b.length = 16 :=
    chunks16_all_length _ (pkcs7pad_length message)
  constructor
  · have hseq : (encryptKlapPayload aesEncBlock sha256 session message).seq
        = incrementSignedInt32 session.sequence := rfl
    have hpayload : (encryptKlapPayload aesEncBlock sha256 session message).payload
        = sha256 (session.signaturePre
              ++ signedInt32Buffer (incrementSignedInt32 session.sequence)
              ++ (cbcEncrypt (aesEncBlock session.key)
                  (klapRequestIv session (incrementSignedInt32 session.sequence))
                  (chunks16 (pkcs7pad message))).flatten)
          ++ (cbcEncrypt (aesEncBlock session.key)
              (klapRequestIv session (incrementSignedInt32 session.sequence))
              (chunks16 (pkcs7pad message))).flatten := rfl
    rw [hseq, hpayload, decryptKlapPayload_append _ _ _ _ _ (hsig _)]
    rw [chunks16_flatten _ (cbcEncrypt_all_length _ hlen _ _ (hiv16 _) hblocks)]
    rw [cbcDecrypt_cbcEncrypt _ _ hinv hlen _ _ (hiv16 _) hblocks]
    rw [flatten_chunks16]
    exact pkcs7unpad_pkcs7pad message
  · intro m seq hm
    rw [decryptKlapPayload, if_pos]
    exact hm

/-- C8 witness: round trip and short-payload rejection at a concrete
session, identity block maps and a constant 32-byte signature. -/
theorem klap_framing_roundtrip_witness :
    decryptKlapPayload (fun _ b => b) ⟨[], List.replicate 12 0, [], 0⟩
        (encryptKlapPayload (fun _ b => b) (fun _ => List.replicate 32 0)
          ⟨[], List.replicate 12 0, [], 0⟩ [1, 2, 3]).payload
        (encryptKlapPayload (fun _ b => b) (fun _ => List.replicate 32 0)
          ⟨[], List.replicate 12 0, [], 0⟩ [1, 2, 3]).seq = some [1, 2, 3]
    ∧ ∀ (m : Bytes) (seq : Int), m.length < 32 →
        decryptKlapPayload (fun _ b => b) ⟨[], List.replicate 12 0, [], 0⟩ m seq = none :=
  klap_framing_roundtrip (fun _ b => b) (fun _ b => b) (fun _ => List.replicate 32 0)
    ⟨[], List.replicate 12 0, [], 0⟩ [1, 2, 3]
    (fun _ _ => rfl) (fun b hb => hb) (fun _ => by simp) (by simp)

/-- C3: for a KLAP send, a 403 from the encrypted data path causes exactly
one session reset, one new full handshake and one resend (two data-path
attempts, two handshakes in the trace); a second 403 is surfaced with no
further retry, as is any non-403 non-200 status (the first attempt's without
any retry at all); a 200 answer completes with a single attempt. -/
theorem klap_403_retry_once (statuses : Nat → Nat) :
    (statuses 0 = 200 →
      klapSend statuses = { result := .ok (), requestAttempts := 1, handshakes := 1 })
    ∧ (statuses 0 = 403 → statuses 1 = 200 →
      klapSend statuses = { result := .ok (), requestAttempts := 2, handshakes := 2 })
    ∧ (statuses 0 = 403 → statuses 1 = 403 →
      klapSend statuses
        = { result := .error .status403, requestAttempts := 2, handshakes := 2 })
    ∧ (statuses 0 = 403 → statuses 1 ≠ 403 → statuses 1 ≠ 200 →
      klapSend statuses
        = { result := .error (.statusOther (statuses 1)), requestAttempts := 2, handshakes := 2 })
    ∧ (statuses 0 ≠ 403 → statuses 0 ≠ 200 →
      klapSend statuses
        = { result := .error (.statusOther (statuses 0)), requestAttempts := 1, handshakes := 1 }) := by
  refine ⟨?_, ?_, ?_, ?_, ?_⟩
  · intro h0
    simp [klapSend, sendEncryptedRequestStatus, h0]
  · intro h0 h1
    simp [klapSend, sendEncryptedRequestStatus, h0, h1]
  · intro h0 h1
    simp [klapSend, sendEncryptedRequestStatus, h0, h1]
  · intro h0 h1 h2
    simp [klapSend, sendEncryptedRequestStatus, h0, h1, h2]
  · intro h0 h1
    simp [klapSend, sendEncryptedRequestStatus, h0, h1]

/-- C3 witness: the 403-then-200 recovery, the double-403 surfacing and the
non-403 non-200 immediate surfacing at concrete status sequences. -/
theorem klap_403_retry_once_witness :
    klapSend (fun i => if i = 0 then 403 else 200)
        = { result := .ok (), requestAttempts := 2, handshakes := 2 }
    ∧ klapSend (fun _ => 403)
        = { result := .error .status403, requestAttempts := 2, handshakes := 2 }
    ∧ klapSend (fun _ => 500)
        = { result := .error (.statusOther 500), requestAttempts := 1, handshakes := 1 } :=
  ⟨(klap_403_retry_once (fun i => if i = 0 then 403 else 200)).2.1 rfl rfl,
   (klap_403_retry_once (fun _ => 403)).2.2.1 rfl rfl,
   (klap_403_retry_once (fun _ => 500)).2.2.2.2 (by decide) (by decide)⟩

/-- C1: evaluation of the code at the failing input.  Candidate 0's
login_device call returns inner error_code -1501 (an AUTH_ERRORS member) and
candidate 1's returns error_code 0 with token "token-1"; the claim says
performLogin then completes without raising and stores candidate 1's token.
Instead, performLoginForCandidate executes `throw error` after the
successful recursive call (aes-connection.ts line 513 runs unconditionally
at the end of the catch block), so performLogin raises candidate 0's error
even though the fallback login succeeded and the token was stored. -/
theorem aes_login_fallback_bug :
    (performLogin [.failure (-1501), .success "token-1"]).result
        = .error (.loginFailed (-1501))
    ∧ (performLogin [.failure (-1501), .success "token-1"]).token = some "token-1" :=
  ⟨rfl, rfl⟩

/-- The seen-set fold of `addCandidate` computes the first-occurrence
deduplication, for any starting seen set and accumulator. -/
theorem addCandidatesFold_eq_dedupAux (raw : List KlapAuthCandidate) :
    ∀ (seen : List (KlapHashVersion × Bytes)) (acc : List KlapAuthCandidate),
      (raw.foldl
        (fun (st : List (KlapHashVersion × Bytes) × List KlapAuthCandidate) candidate =>
          if candidateKey candidate ∈ st.1 then st
          else (candidateKey candidate :: st.1, st.2 ++ [candidate]))
        (seen, acc)).2
      = acc ++ dedupByKeyAux candidateKey seen raw := by
  induction raw with
  | nil =>
    intro seen acc
    simp [dedupByKeyAux]
  | cons x xs ih =>
    intro seen acc
    by_cases hx : candidateKey x ∈ seen
    · simp only [List.foldl_cons, if_pos hx, dedupByKeyAux, ih]
    · simp only [List.foldl_cons, if_neg hx, dedupByKeyAux, ih]
      simp

/-- The candidate loop returns the first candidate whose challenge matches
the server hash, and the authentication-failure error when none does. -/
theorem selectAuthCandidateLoop_eq_find (sha256 : Bytes → Bytes)
    (localSeed remoteSeed serverHash : Bytes) :
    ∀ candidates : List KlapAuthCandidate,
      selectAuthCandidateLoop sha256 localSeed remoteSeed serverHash candidates
        = (match candidates.find? (fun candidate =>
              handshake1SeedAuthHash sha256 localSeed remoteSeed candidate.authHash
                candidate.version == serverHash) with
           | some candidate => Except.ok candidate
           | none => Except.error "authentication failed (challenge mismatch)") := by
  intro candidates
  induction candidates with
  | nil => rfl
  | cons candidate rest ih =>
    by_cases h : handshake1SeedAuthHash sha256 localSeed remoteSeed candidate.authHash
        candidate.version = serverHash
    · simp [selectAuthCandidateLoop, List.find?, h]
    · simp only [selectAuthCandidateLoop, if_neg h, ih, List.find?]
      rw [show (handshake1SeedAuthHash sha256 localSeed remoteSeed candidate.authHash
          candidate.version == serverHash) = false by simp [h]]

/-- C6: buildAuthCandidates is the first-occurrence deduplication by
(version, hash) of the ordered candidate sequence credentialsHash (v2, v1),
user credentials (v2, v1), KASA defaults (v2, v1), TAPO defaults (v2, v1),
blank credentials (v2, v1); and selectAuthCandidate returns the first of
those candidates whose computed challenge (v2: sha256(localSeed ++
remoteSeed ++ authHash); v1: sha256(localSeed ++ authHash)) equals the
server hash, raising the authentication-failed error when none matches. -/
theorem klap_candidate_selection (md5 sha1 sha256 : Bytes → Bytes)
    (credentialsHash : Option Bytes) (credentials : Option Credentials)
    (localSeed remoteSeed serverHash : Bytes) :
    buildAuthCandidates md5 sha1 sha256 credentialsHash credentials
        = dedupByKey candidateKey
            (rawAuthCandidates md5 sha1 sha256 credentialsHash credentials)
    ∧ selectAuthCandidate md5 sha1 sha256 credentialsHash credentials
          localSeed remoteSeed serverHash
        = (match (buildAuthCandidates md5 sha1 sha256 credentialsHash
              credentials).find? (fun candidate =>
                handshake1SeedAuthHash sha256 localSeed remoteSeed
                  candidate.authHash candidate.version == serverHash) with
           | some candidate => Except.ok candidate
           | none => Except.error "authentication failed (challenge mismatch)") := by
  constructor
  · rw [buildAuthCandidates, addCandidatesFold, addCandidatesFold_eq_dedupAux]
    rw [dedupByKey, List.nil_append]
  · rw [selectAuthCandidate, selectAuthCandidateLoop_eq_find]

/-- The zero-byte scan finds exactly the first zero in the list. -/
theorem firstZeroOffset_spec : ∀ (l : Bytes) (j : Nat),
    firstZeroOffset l = some j ↔
      l[j]? = some 0 ∧ ∀ i, i < j → l[i]? ≠ some 0 := by
  intro l
  induction l with
  | nil =>
    intro j
    simp [firstZeroOffset]
  | cons b rest ih =>
    intro j
    by_cases hb : b = 0
    · subst hb
      simp only [firstZeroOffset, if_pos rfl]
      constructor
      · intro h
        have hj : j = 0 := by
          injection h with h
          omega
        subst hj
        exact ⟨by simp, fun i hi => absurd hi (Nat.not_lt_zero i)⟩
      · rintro ⟨h1, h2⟩
        cases j with
        | zero => rfl
        | succ k =>
          exfalso
          exact h2 0 (Nat.succ_pos k) (by simp)
    · simp only [firstZeroOffset, if_neg hb]
      cases j with
      | zero =>
        constructor
        · intro h
          rcases Option.map_eq_some'.mp h with ⟨a, _, ha⟩
          omega
        · rintro ⟨h1, _⟩
          simp only [List.getElem?_cons_zero, Option.some.injEq] at h1
          exact absurd h1 hb
      | succ k =>
        constructor
        · intro h
          rcases Option.map_eq_some'.mp h with ⟨a, ha, hak⟩
          have hak' : a = k := by omega
          rw [hak'] at ha
          rcases (ih k).mp ha with ⟨h1, h2⟩
          refine ⟨by simpa using h1, ?_⟩
          intro i hi
          cases i with
          | zero =>
            intro hcon
            simp only [List.getElem?_cons_zero, Option.some.injEq] at hcon
            exact hb hcon
          | succ i' =>
            intro hcon
            exact h2 i' (by omega) (by simpa using hcon)
        · rintro ⟨h1, h2⟩
          have h1' : rest[k]? = some 0 := by simpa using h1
          have h2' : ∀ i, i < k → rest[i]? ≠ some 0 := by
            intro i hi hcon
            exact h2 (i + 1) (by omega) (by simpa using hcon)
          rw [(ih k).mpr ⟨h1', h2'⟩]
          rfl

/-- C9: the manual PKCS#1 v1.5 unpad returns the bytes after the first 0x00
separator exactly when the decrypted block begins with 0x00 0x02 and that
first separator (searched from index 2) lies at index ≥ 10, and fails
otherwise, including every block shorter than 11 bytes; and the AES
handshake rejects unpadded key material shorter than 32 bytes and otherwise
takes bytes 0..15 as the AES key and bytes 16..31 as the IV. -/
theorem pkcs1_unpad_and_key_split (block tail material : Bytes) :
    (pkcs1v15Unpad block = .ok tail ↔
      11 ≤ block.length ∧ block.take 2 = [0, 2] ∧
      ∃ sep : Nat, 10 ≤ sep ∧ block[sep]? = some 0 ∧
        (∀ i, 2 ≤ i → i < sep → block[i]? ≠ some 0) ∧
        tail = block.drop (sep + 1))
    ∧ (material.length < 32 →
        splitAesKeyMaterial material = .error "handshake key material is invalid")
    ∧ (32 ≤ material.length →
        splitAesKeyMaterial material
          = .ok (material.take 16, (material.drop 16).take 16)) := by
  refine ⟨?_, ?_, ?_⟩
  · constructor
    · intro h
      rw [pkcs1v15Unpad] at h
      by_cases hlen : block.length < 11
      · rw [if_pos hlen] at h
        exact absurd h (by simp)
      · rw [if_neg hlen] at h
        by_cases hpre : block.take 2 ≠ [0, 2]
        · rw [if_pos hpre] at h
          exact absurd h (by simp)
        · rw [if_neg hpre] at h
          push_neg at hpre
          rcases hsep : firstZeroOffset (block.drop 2) with _ | j
          · rw [findSeparatorIndex, hsep] at h
            rw [if_pos (by norm_num)] at h
            exact absurd h (by simp)
          · rw [findSeparatorIndex, hsep] at h
            by_cases hj : ((j : Int) + 2) < 10
            · rw [if_pos hj] at h
              exact absurd h (by simp)
            · rw [if_neg hj] at h
              simp only [Except.ok.injEq] at h
              rcases (firstZeroOffset_spec (block.drop 2) j).mp hsep with ⟨h1, h2⟩
              refine ⟨by omega, hpre, j + 2, by omega, ?_, ?_, ?_⟩
              · rw [List.getElem?_drop] at h1
                rw [show 2 + j = j + 2 from by omega] at h1
                exact h1
              · intro i h2i hij
                have hi' : i - 2 < j := by omega
                have := h2 (i - 2) hi'
                rw [List.getElem?_drop, show 2 + (i - 2) = i from by omega] at this
                exact this
              · rw [← h]
                have harg : ((j : Int) + 2).toNat + 1 = j + 2 + 1 := by omega
                rw [harg]
    · rintro ⟨hlen, hpre, sep, hsep10, hsepz, hfirst, htail⟩
      rw [pkcs1v15Unpad, if_neg (by omega), if_neg (by simp [hpre])]
      have hoff : firstZeroOffset (block.drop 2) = some (sep - 2) := by
        apply (firstZeroOffset_spec (block.drop 2) (sep - 2)).mpr
        constructor
        · rw [List.getElem?_drop, show 2 + (sep - 2) = sep from by omega]
          exact hsepz
        · intro i hi
          rw [List.getElem?_drop]
          exact hfirst (2 + i) (by omega) (by omega)
      have hfs : findSeparatorIndex block = ((sep - 2 : Nat) : Int) + 2 := by
        rw [findSeparatorIndex, hoff]
      rw [hfs, if_neg (by omega)]
      have harg : (((sep - 2 : Nat) : Int) + 2).toNat + 1 = sep + 1 := by omega
      rw [harg, htail]
  · intro hshort
    rw [splitAesKeyMaterial, if_pos hshort]
  · intro hlong
    rw [splitAesKeyMaterial, if_neg (by omega)]

/-- C9 witness: a well-formed 13-byte block with the first separator at
index 10 unpads to its tail, and 31-byte key material is rejected. -/
theorem pkcs1_unpad_and_key_split_witness :
    pkcs1v15Unpad [0, 2, 1, 1, 1, 1, 1, 1, 1, 1, 0, 7, 8] = .ok [7, 8]
    ∧ splitAesKeyMaterial (List.replicate 31 0)
        = .error "handshake key material is invalid" :=
  ⟨(pkcs1_unpad_and_key_split [0, 2, 1, 1, 1, 1, 1, 1, 1, 1, 0, 7, 8] [7, 8] []).1.mpr
      ⟨by norm_num, by decide, 10, by norm_num, by decide,
        by
          intro i h2 h10
          interval_cases i <;> decide,
        by decide⟩,
   (pkcs1_unpad_and_key_split [] [] (List.replicate 31 0)).2.1 (by decide)⟩

/-- The entry fold succeeds on well-formed all-zero entries and computes the
method-keyed map, from any accumulator. -/
theorem processSmartEntries_ok (entries : List JVal) :
    ∀ acc : List (String × JVal),
      (∀ e ∈ entries, ∃ m, entryMethod? e = some m ∧ e.errorCode? = some 0) →
      processSmartEntries entries acc
        = .ok (entries.foldl
            (fun acc entry =>
              objInsert acc ((entryMethod? entry).getD "")
                ((entry.get? "result").getD .undef))
            acc) := by
  induction entries with
  | nil =>
    intro acc _
    rfl
  | cons entry rest ih =>
    intro acc hall
    rcases hall entry (List.mem_cons_self entry rest) with ⟨m, hm, hc⟩
    rw [processSmartEntries, hm, hc]
    simp only [if_pos rfl, List.foldl_cons, hm, Option.getD_some]
    exact ih _ (fun e he => hall e (List.mem_cons_of_mem entry he))

/-- The entry fold surfaces the first non-zero entry's SmartError, with that
entry's code and method, from any accumulator. -/
theorem processSmartEntries_smartError (pre : List JVal) :
    ∀ (bad : JVal) (rest : List JVal) (acc : List (String × JVal)) (c : Int) (m : String),
      (∀ e ∈ pre, ∃ m0, entryMethod? e = some m0 ∧ e.errorCode? = some 0) →
      entryMethod? bad = some m → bad.errorCode? = some c → c ≠ 0 →
      processSmartEntries (pre ++ bad :: rest) acc = .error (.smartError c m) := by
  induction pre with
  | nil =>
    intro bad rest acc c m _ hm hc hcne
    rw [List.nil_append, processSmartEntries, hm, hc]
    simp only [if_neg hcne]
  | cons entry pre' ih =>
    intro bad rest acc c m hall hm hc hcne
    rcases hall entry (List.mem_cons_self entry pre') with ⟨m0, hm0, hc0⟩
    rw [List.cons_append, processSmartEntries, hm0, hc0]
    simp only [if_pos rfl]
    exact ih bad rest _ c m (fun e he => hall e (List.mem_cons_of_mem entry he)) hm hc hcne

/-- The entry fold raises the protocol error at the first entry without a
string method or numeric error_code, from any accumulator. -/
theorem processSmartEntries_protocolError (pre : List JVal) :
    ∀ (bad : JVal) (rest : List JVal) (acc : List (String × JVal)),
      (∀ e ∈ pre, ∃ m0, entryMethod? e = some m0 ∧ e.errorCode? = some 0) →
      (entryMethod? bad = none ∨ bad.errorCode? = none) →
      processSmartEntries (pre ++ bad :: rest) acc
        = .error (.protocolError "Unexpected SMART response entry") := by
  induction pre with
  | nil =>
    intro bad rest acc _ hbad
    rw [List.nil_append, processSmartEntries]
    rcases hbad with hbad | hbad
    · rw [hbad]
    · rw [hbad]
      rcases hmm : entryMethod? bad with _ | m0
      · rfl
      · rfl
  | cons entry pre' ih =>
    intro bad rest acc hall hbad
    rcases hall entry (List.mem_cons_self entry pre') with ⟨m0, hm0, hc0⟩
    rw [List.cons_append, processSmartEntries, hm0, hc0]
    simp only [if_pos rfl]
    exact ih bad rest _ (fun e he => hall e (List.mem_cons_of_mem entry he)) hbad

/-- C4: in a multipleRequest response whose outer error_code is 0 and whose
result.responses is an array of entries, each entry must carry a string
method and a numeric error_code or the protocol error is raised at the
first violating entry; the first entry with a non-zero error_code raises a
SmartError carrying that entry's errorCode and method; and when every entry
is well formed with error_code 0, the call returns the map from each
entry's method to its result. -/
theorem smart_batch_entry_surfacing (outer : JVal) (entries : List JVal)
    (h0 : outer.errorCode? = some 0)
    (hresp : ((outer.get? "result").getD .undef).get? "responses"
        = some (.arr entries)) :
    ((∀ e ∈ entries, ∃ m, entryMethod? e = some m ∧ e.errorCode? = some 0) →
      processSmartResponse outer "multipleRequest"
        = .ok (.obj (smartResponseMap entries)))
    ∧ (∀ (pre : List JVal) (bad : JVal) (rest : List JVal),
        entries = pre ++ bad :: rest →
        (∀ e ∈ pre, ∃ m0, entryMethod? e = some m0 ∧ e.errorCode? = some 0) →
        ∀ (c : Int) (m : String),
          entryMethod? bad = some m → bad.errorCode? = some c → c ≠ 0 →
          processSmartResponse outer "multipleRequest" = .error (.smartError c m))
    ∧ (∀ (pre : List JVal) (bad : JVal) (rest : List JVal),
        entries = pre ++ bad :: rest →
        (∀ e ∈ pre, ∃ m0, entryMethod? e = some m0 ∧ e.errorCode? = some 0) →
        (entryMethod? bad = none ∨ bad.errorCode? = none) →
        processSmartResponse outer "multipleRequest"
          = .error (.protocolError "Unexpected SMART response entry")) := by
  have hassert : assertSmartSuccess outer "multipleRequest" = .ok outer := by
    rw [assertSmartSuccess, h0]
    simp
  have hP : processSmartResponse outer "multipleRequest"
      = (match processSmartEntries entries [] with
         | .ok multiResults => Except.ok (JVal.obj multiResults)
         | .error e => Except.error e) := by
    rw [processSmartResponse, hassert]
    simp [hresp]
  refine ⟨?_, ?_, ?_⟩
  · intro hall
    rw [hP, processSmartEntries_ok entries [] hall]
    rfl
  · intro pre bad rest hsplit hpre c m hm hc hcne
    rw [hP, hsplit, processSmartEntries_smartError pre bad rest [] c m hpre hm hc hcne]
  · intro pre bad rest hsplit hpre hbad
    rw [hP, hsplit, processSmartEntries_protocolError pre bad rest [] hpre hbad]

/-- C4 witness: a two-entry batch whose second entry fails with error_code
-1001 on method get_device_time surfaces exactly that SmartError. -/
theorem smart_batch_entry_surfacing_witness :
    processSmartResponse
        (.obj [("error_code", .num 0),
          ("result", .obj [("responses", .arr
            [.obj [("method", .str "get_device_info"), ("error_code", .num 0),
              ("result", .str "infoResult")],
             .obj [("method", .str "get_device_time"),
              ("error_code", .num (-1001))]])])])
        "multipleRequest"
      = .error (.smartError (-1001) "get_device_time") :=
  (smart_batch_entry_surfacing
      (.obj [("error_code", .num 0),
        ("result", .obj [("responses", .arr
          [.obj [("method", .str "get_device_info"), ("error_code", .num 0),
            ("result", .str "infoResult")],
           .obj [("method", .str "get_device_time"),
            ("error_code", .num (-1001))]])])])
      [.obj [("method", .str "get_device_info"), ("error_code", .num 0),
        ("result", .str "infoResult")],
       .obj [("method", .str "get_device_time"), ("error_code", .num (-1001))]]
      rfl rfl).2.1
    [.obj [("method", .str "get_device_info"), ("error_code", .num 0),
      ("result", .str "infoResult")]]
    (.obj [("method", .str "get_device_time"), ("error_code", .num (-1001))])
    [] rfl
    (by
      intro e he
      simp only [List.mem_singleton] at he
      subst he
      exact ⟨"get_device_info", rfl, rfl⟩)
    (-1001) "get_device_time" rfl rfl (by norm_num)

/-- C5: a sendSmartCommand call with exactly one childId transmits a
control_child payload whose params.device_id is the normalized childId
(deviceId ++ "0" ++ id for a 1-character id, deviceId ++ id for a
2-character id, the id verbatim otherwise) and whose params.requestData
holds the inner method and params; when the outer envelope and the nested
responseData both carry error_code 0, the returned value is the nested
responseData.result; and a call with more than one childId raises an error
with nothing sent. -/
theorem smart_control_child_routing (dev : DeviceModel) (nowMs : Int)
    (method : String) (params : Option JVal) (c : String) (response : JVal) :
    (∃ p, (sendSmartCommand dev nowMs method params (some [c]) response).sent = some p
      ∧ p.get? "method" = some (.str "control_child")
      ∧ ((p.get? "params").getD .undef).get? "device_id"
          = some (.str (if c.length = 1 then dev.deviceId ++ "0" ++ c
              else if c.length = 2 then dev.deviceId ++ c else c))
      ∧ ((p.get? "params").getD .undef).get? "requestData"
          = some (.obj ([("method", .str method)]
              ++ (match params with
                  | some q => [("params", q)]
                  | none => [])))
      ∧ p.get? "request_time_milis" = some (.num nowMs)
      ∧ p.get? "terminal_uuid" = some (.str dev.terminalUuid))
    ∧ (∀ rd r : JVal,
        response.errorCode? = some 0 →
        ((response.get? "result").getD .undef).get? "responseData" = some rd →
        rd.errorCode? = some 0 →
        rd.get? "result" = some r →
        method ≠ "multipleRequest" →
        (sendSmartCommand dev nowMs method params (some [c]) response).result = .ok r)
    ∧ (∀ ids : List String, ids.length > 1 →
        sendSmartCommand dev nowMs method params (some ids) response
          = { sent := none,
              result := .error
                (.protocolError "SMART control_child supports a single child id") }) := by
  have hchild : getSingleSmartChildId dev.deviceId (some [c])
      = .ok (some (normalizeChildId dev.deviceId c)) := by
    rw [getSingleSmartChildId]
    simp
  refine ⟨?_, ?_, ?_⟩
  · refine ⟨createSmartRequestPayload nowMs dev.terminalUuid "control_child"
      (some (.obj [("device_id", .str (normalizeChildId dev.deviceId c)),
        ("requestData", .obj ([("method", .str method)]
          ++ (match params with
              | some p => [("params", p)]
              | none => [])))])), ?_, ?_, ?_, ?_, ?_, ?_⟩
    · rw [sendSmartCommand.eq_def, hchild]
    · cases params <;> rfl
    · cases params <;> simp [createSmartRequestPayload, JVal.get?, List.find?, normalizeChildId]
    · cases params <;> simp [createSmartRequestPayload, JVal.get?, List.find?]
    · cases params <;> rfl
    · cases params <;> rfl
  · intro rd r h0 hrd hrd0 hres hmulti
    have houter : assertSmartSuccess response "control_child" = .ok response := by
      rw [assertSmartSuccess, h0]
      simp
    have hinner : processSmartResponse rd method = .ok r := by
      have hasserti : assertSmartSuccess rd method = .ok rd := by
        rw [assertSmartSuccess, hrd0]
        simp
      rw [processSmartResponse, hasserti]
      simp [hmulti, hres]
    rw [sendSmartCommand.eq_def, hchild]
    simp only [houter, hrd, hinner]
  · intro ids hids
    rw [sendSmartCommand.eq_def, getSingleSmartChildId]
    simp only [List.length_map]
    rw [if_pos hids]

/-- C5 witness: the unwrap of a well-formed control_child reply for
childId "00" on device "D", and the rejection of two childIds. -/
theorem smart_control_child_routing_witness :
    (sendSmartCommand ⟨"D", "U"⟩ 5 "set_device_info"
        (some (.obj [("device_on", .bool true)])) (some ["00"])
        (.obj [("error_code", .num 0),
          ("result", .obj [("responseData",
            .obj [("error_code", .num 0), ("result", .str "nested")])])])).result
      = .ok (.str "nested")
    ∧ sendSmartCommand ⟨"D", "U"⟩ 5 "set_device_info"
        (some (.obj [("device_on", .bool true)])) (some ["00", "01"])
        (.obj [("error_code", .num 0),
          ("result", .obj [("responseData",
            .obj [("error_code", .num 0), ("result", .str "nested")])])])
      = { sent := none,
          result := .error
            (.protocolError "SMART control_child supports a single child id") } :=
  ⟨(smart_control_child_routing ⟨"D", "U"⟩ 5 "set_device_info"
      (some (.obj [("device_on", .bool true)])) "00"
      (.obj [("error_code", .num 0),
        ("result", .obj [("responseData",
          .obj [("error_code", .num 0), ("result", .str "nested")])])])).2.1
      (.obj [("error_code", .num 0), ("result", .str "nested")]) (.str "nested")
      rfl rfl rfl rfl (by decide),
   (smart_control_child_routing ⟨"D", "U"⟩ 5 "set_device_info"
      (some (.obj [("device_on", .bool true)])) "00"
      (.obj [("error_code", .num 0),
        ("result", .obj [("responseData",
          .obj [("error_code", .num 0), ("result", .str "nested")])])])).2.2
      ["00", "01"] (by norm_num)⟩

/-- C10: sendSmartRequests with an empty request list resolves to the empty
map immediately for every device, child selection and environment reply,
with nothing transmitted (hence no handshake, login or HTTP request and no
session-state change). -/
theorem smart_empty_batch_short_circuit (dev : DeviceModel) (nowMs : Int)
    (childIds : Option (List String)) (response : JVal) :
    sendSmartRequests dev nowMs [] childIds response
      = { sent := none, result := .ok (.obj []) } := rfl
